import Mathlib

/-!
Shallow embedding of the SVG transform engine of `src/svgTransforms.js`
(the core of the replicad-decorate repository).

JavaScript numbers are modelled as exact rationals together with the two
non-numeric values that actually flow through this code: `NaN` (produced by
`parseFloat` on non-numeric tokens and by arithmetic on `undefined`) and
`undefined` (produced by out-of-range array indexing).  Floating-point
rounding is out of scope; all claims are about exact value flow.
`Math.cos`/`Math.sin`/`Math.tan` (reached only through `rotate`/`skewX`/
`skewY`) are irrational-valued, so they are kept abstract as a `TrigModel`
parameter; every theorem that touches `parseTransform` is proved for every
trig model.
-/

/-- A JavaScript numeric value as it flows through svgTransforms.js:
a finite number (modelled exactly as a rational), `NaN`, or `undefined`. -/
inductive JSVal where
  | num (q : ℚ)
  | nan
  | undef
deriving DecidableEq

/-- JS addition: `undefined` and `NaN` operands yield `NaN`. -/
def jsAdd : JSVal → JSVal → JSVal
  | JSVal.num a, JSVal.num b => JSVal.num (a + b)
  | _, _ => JSVal.nan

/-- JS multiplication: `undefined` and `NaN` operands yield `NaN`
(including `0 * NaN = NaN`). -/
def jsMul : JSVal → JSVal → JSVal
  | JSVal.num a, JSVal.num b => JSVal.num (a * b)
  | _, _ => JSVal.nan

/-- JS subtraction. -/
def jsSub : JSVal → JSVal → JSVal
  | JSVal.num a, JSVal.num b => JSVal.num (a - b)
  | _, _ => JSVal.nan

/-- `Math.abs`. -/
def jsAbs : JSVal → JSVal
  | JSVal.num a => JSVal.num |a|
  | _ => JSVal.nan

/-- JS falsiness of a value in this pipeline: `0`, `NaN` and `undefined`
are falsy. -/
def jsFalsy : JSVal → Bool
  | JSVal.num a => a == 0
  | JSVal.nan => true
  | JSVal.undef => true

/-- `v || d` for a numeric default `d`, as used for argument defaulting. -/
def jsOrDefault (v : JSVal) (d : ℚ) : JSVal :=
  if jsFalsy v then JSVal.num d else v

/-- JS strict equality `===` restricted to the values of this pipeline;
`NaN === x` is always false. -/
def jsStrictEq : JSVal → JSVal → Bool
  | JSVal.num a, JSVal.num b => a == b
  | JSVal.undef, JSVal.undef => true
  | _, _ => false

/-- `Math.min` on two values; any `NaN` (or `undefined`, which `Math.min`
coerces to `NaN`) poisons the result. -/
def jsMin : JSVal → JSVal → JSVal
  | JSVal.num a, JSVal.num b => JSVal.num (min a b)
  | _, _ => JSVal.nan

/-- `Math.max` on two values. -/
def jsMax : JSVal → JSVal → JSVal
  | JSVal.num a, JSVal.num b => JSVal.num (max a b)
  | _, _ => JSVal.nan

/-- Least exponent `k ≤ 32` such that `d` divides `10 ^ k`; every number
that reaches the serializers in this pipeline is a finite decimal, so the
bound is never hit there. -/
def pow10DivisorExp (d : ℕ) : Option ℕ :=
  (List.range 33).find? (fun k => 10 ^ k % d == 0)

/-- Drop trailing `'0'` characters. -/
def stripTrailingZeros (s : String) : String :=
  String.mk (s.toList.reverse.dropWhile (fun c => c == '0')).reverse

/-- Left-pad with `'0'` up to length `k`. -/
def padLeftZeros (s : String) (k : ℕ) : String :=
  String.mk (List.replicate (k - s.length) '0') ++ s

/-- JS `Number.prototype.toString` for the finite-decimal rationals this
pipeline produces: sign, integer part, and the fractional digits without
trailing zeros (`(3:ℚ)` renders as `"3"`, `(7/2:ℚ)` as `"3.5"`).  For a
rational that is not a finite decimal (unreachable from parsed input) a
fraction notation fallback is used. -/
def jsNumToStr (q : ℚ) : String :=
  match pow10DivisorExp q.den with
  | some k =>
      let n : ℤ := q.num * ((10 ^ k : ℕ) / q.den : ℕ)
      let m : ℕ := n.natAbs
      let ip : ℕ := m / 10 ^ k
      let fp : ℕ := m % 10 ^ k
      let fracStr := stripTrailingZeros (padLeftZeros (toString fp) k)
      let core := toString ip ++ (if fracStr = ("") then ("") else ("." ++ fracStr))
      if n < 0 then ("-" ++ core) else core
  | none => toString q.num ++ ("/" ++ toString q.den)

/-- JS `Math.round`: half-up (towards positive infinity). -/
def jsRoundQ (x : ℚ) : ℤ :=
  Rat.floor (x + 1/2)

/-- `formatNumber` of svgTransforms.js: round to 6 decimal places and
render; `Math.round(NaN)` is `NaN` and renders as `"NaN"` (the same
happens when an `undefined` coordinate reaches it, since
`undefined * 1000000` is `NaN`). -/
def formatNumber : JSVal → String
  | JSVal.num q => jsNumToStr ((jsRoundQ (q * 1000000) : ℚ) / 1000000)
  | _ => ("NaN")

/-- JS `x.toString()` on a value of this pipeline: throws (`none`) on
`undefined`, renders `NaN` as `"NaN"`. -/
def jsValToStr : JSVal → Option String
  | JSVal.num q => some (jsNumToStr q)
  | JSVal.nan => some ("NaN")
  | JSVal.undef => none

/-- The 6-parameter affine matrix `[a, b, c, d, e, f]` of svgTransforms.js,
representing the matrix with rows `(a, c, e)`, `(b, d, f)`, `(0, 0, 1)`. -/
@[ext] structure AffineMatrix where
  a : JSVal
  b : JSVal
  c : JSVal
  d : JSVal
  e : JSVal
  f : JSVal
deriving DecidableEq

/-- The identity matrix `[1, 0, 0, 1, 0, 0]`. -/
def identityMatrix : AffineMatrix :=
  ⟨JSVal.num 1, JSVal.num 0, JSVal.num 0, JSVal.num 1, JSVal.num 0, JSVal.num 0⟩

/-- `multiplyMatrices` of svgTransforms.js: the standard product `M1 · M2`
of the two affine matrices. -/
def multiplyMatrices (m1 m2 : AffineMatrix) : AffineMatrix :=
  ⟨jsAdd (jsMul m1.a m2.a) (jsMul m1.c m2.b),
   jsAdd (jsMul m1.b m2.a) (jsMul m1.d m2.b),
   jsAdd (jsMul m1.a m2.c) (jsMul m1.c m2.d),
   jsAdd (jsMul m1.b m2.c) (jsMul m1.d m2.d),
   jsAdd (jsAdd (jsMul m1.a m2.e) (jsMul m1.c m2.f)) m1.e,
   jsAdd (jsAdd (jsMul m1.b m2.e) (jsMul m1.d m2.f)) m1.f⟩

/-- `isIdentityMatrix` of svgTransforms.js: strict (`===`) comparison of the
six entries against `(1, 0, 0, 1, 0, 0)`, with no epsilon tolerance. -/
def isIdentityMatrix (m : AffineMatrix) : Bool :=
  jsStrictEq m.a (JSVal.num 1) && jsStrictEq m.b (JSVal.num 0) &&
  jsStrictEq m.c (JSVal.num 0) && jsStrictEq m.d (JSVal.num 1) &&
  jsStrictEq m.e (JSVal.num 0) && jsStrictEq m.f (JSVal.num 0)

/-- `applyTransform` of svgTransforms.js:
`(x, y) ↦ (a·x + c·y + e, b·x + d·y + f)`. -/
def applyTransformJS (m : AffineMatrix) (x y : JSVal) : JSVal × JSVal :=
  (jsAdd (jsAdd (jsMul m.a x) (jsMul m.c y)) m.e,
   jsAdd (jsAdd (jsMul m.b x) (jsMul m.d y)) m.f)

/-- Abstract model of `Math.cos`/`Math.sin`/`Math.tan` on an angle given in
degrees (the `* Math.PI / 180` conversion of the source is folded into the
abstract function, since neither `π` nor the trigonometric functions are
rational).  Every theorem below holds for every trig model. -/
structure TrigModel where
  cosDeg : ℚ → ℚ
  sinDeg : ℚ → ℚ
  tanDeg : ℚ → ℚ

/-- A trivial trig model used to instantiate closed witnesses; the claims
never depend on trigonometric values. -/
def trigZero : TrigModel :=
  ⟨fun _ => 1, fun _ => 0, fun _ => 0⟩

/-- Element access `args[i]`, `undefined` when out of range. -/
def jsIndex (args : List JSVal) (i : ℕ) : JSVal :=
  (args.get? i).getD JSVal.undef

/-- `createTransformMatrix` of svgTransforms.js: build the matrix of one
transform function; unknown names yield the identity matrix. -/
def createTransformMatrix (T : TrigModel) (type : String) (args : List JSVal) : AffineMatrix :=
  if type = ("translate") then
    let tx := jsOrDefault (jsIndex args 0) 0
    let ty := jsOrDefault (jsIndex args 1) 0
    ⟨JSVal.num 1, JSVal.num 0, JSVal.num 0, JSVal.num 1, tx, ty⟩
  else if type = ("matrix") then
    if args.length = 6 then
      ⟨jsIndex args 0, jsIndex args 1, jsIndex args 2,
       jsIndex args 3, jsIndex args 4, jsIndex args 5⟩
    else identityMatrix
  else if type = ("scale") then
    let sx := jsOrDefault (jsIndex args 0) 1
    let sy := if jsIndex args 1 ≠ JSVal.undef then jsIndex args 1 else sx
    ⟨sx, JSVal.num 0, JSVal.num 0, sy, JSVal.num 0, JSVal.num 0⟩
  else if type = ("rotate") then
    let angle := jsOrDefault (jsIndex args 0) 0
    let cx := jsOrDefault (jsIndex args 1) 0
    let cy := jsOrDefault (jsIndex args 2) 0
    let co := JSVal.num (match angle with | JSVal.num q => T.cosDeg q | _ => 0)
    let si := JSVal.num (match angle with | JSVal.num q => T.sinDeg q | _ => 0)
    if jsStrictEq cx (JSVal.num 0) && jsStrictEq cy (JSVal.num 0) then
      ⟨co, si, jsMul (JSVal.num (-1)) si, co, JSVal.num 0, JSVal.num 0⟩
    else
      multiplyMatrices
        ⟨JSVal.num 1, JSVal.num 0, JSVal.num 0, JSVal.num 1, cx, cy⟩
        (multiplyMatrices
          ⟨co, si, jsMul (JSVal.num (-1)) si, co, JSVal.num 0, JSVal.num 0⟩
          ⟨JSVal.num 1, JSVal.num 0, JSVal.num 0, JSVal.num 1,
           jsMul (JSVal.num (-1)) cx, jsMul (JSVal.num (-1)) cy⟩)
  else if type = ("skewX") then
    let angle := jsOrDefault (jsIndex args 0) 0
    let ta := JSVal.num (match angle with | JSVal.num q => T.tanDeg q | _ => 0)
    ⟨JSVal.num 1, JSVal.num 0, ta, JSVal.num 1, JSVal.num 0, JSVal.num 0⟩
  else if type = ("skewY") then
    let angle := jsOrDefault (jsIndex args 0) 0
    let ta := JSVal.num (match angle with | JSVal.num q => T.tanDeg q | _ => 0)
    ⟨JSVal.num 1, ta, JSVal.num 0, JSVal.num 1, JSVal.num 0, JSVal.num 0⟩
  else identityMatrix

/-- Word character of the regex class `\w`. -/
def isWordChar (c : Char) : Bool :=
  c.isAlpha || c.isDigit || c == '_'

/-- Whitespace character of the regex class `\s` (the forms relevant to
attribute strings). -/
def isSpaceChar (c : Char) : Bool :=
  c == ' ' || c == '\t' || c == '\n' || c == '\r'

/-- Separator character of the arg-splitting regex class `[\s,]`. -/
def isSepChar (c : Char) : Bool :=
  isSpaceChar c || c == ','

/-- Match the regex `\w+\s*\(([^)]+)\)` at the start of the input: a maximal
word run, optional spaces, `'('`, at least one non-`')'` character, `')'`.
Returns the function name, the raw argument text and the rest of the input. -/
def matchTransformFn (l : List Char) : Option (String × String × List Char) :=
  let name := l.takeWhile isWordChar
  if name.isEmpty then none
  else
    let r1 := (l.drop name.length).dropWhile isSpaceChar
    match r1 with
    | '(' :: r2 =>
        let argsStr := r2.takeWhile (fun c => c ≠ ')')
        if argsStr.isEmpty then none
        else
          match r2.drop argsStr.length with
          | ')' :: r3 => some (String.mk name, String.mk argsStr, r3)
          | _ => none
    | _ => none

/-- Global scan of `/(\w+)\s*\(([^)]+)\)/g` over the input: like
`RegExp.exec` in a loop, the search advances one character past every
position where no match starts and past each whole match.  The fuel is the
input length, enough since every step consumes at least one character. -/
def scanTransforms : ℕ → List Char → List (String × String)
  | 0, _ => []
  | _, [] => []
  | fuel + 1, c :: rest =>
      if isWordChar c then
        match matchTransformFn (c :: rest) with
        | some (name, args, rest2) => (name, args) :: scanTransforms fuel rest2
        | none => scanTransforms fuel rest
      else scanTransforms fuel rest

/-- JS `String.prototype.split` on the separator class `[\s,]+`: maximal
separator runs divide the string; a leading or trailing run contributes an
empty field, exactly as in JavaScript. -/
def splitSepFields : ℕ → List Char → List Char → List String
  | 0, cur, _ => [String.mk cur.reverse]
  | _, cur, [] => [String.mk cur.reverse]
  | fuel + 1, cur, c :: rest =>
      if isSepChar c then
        String.mk cur.reverse :: splitSepFields fuel [] (rest.dropWhile isSepChar)
      else splitSepFields fuel (c :: cur) rest

/-- Digit list to natural number. -/
def digitsToNat (l : List Char) : ℕ :=
  l.foldl (fun n c => n * 10 + (c.toNat - '0'.toNat)) 0

/-- JS `parseFloat`: skip leading whitespace, optional sign, a decimal
mantissa (digits, or digits-dot-digits, or a dangling dot with digits on one
side) and an optional exponent; any trailing garbage is ignored; `NaN`
(here `JSVal.nan`) when no numeric prefix exists.  (The `Infinity` literal
is not modelled; it never occurs in the grammar this engine consumes.) -/
def parseFloatJS (s : String) : JSVal :=
  let l0 := s.toList.dropWhile isSpaceChar
  let sign : ℚ := if l0.headD ' ' = '-' then -1 else 1
  let l1 := if l0.headD ' ' = '-' || l0.headD ' ' = '+' then l0.drop 1 else l0
  let ds1 := l1.takeWhile Char.isDigit
  let l2 := l1.drop ds1.length
  let hasDot := l2.headD ' ' = '.'
  let ds2 := if hasDot then (l2.drop 1).takeWhile Char.isDigit else []
  let l3 := if hasDot then (l2.drop 1).drop ds2.length else l2
  if ds1.isEmpty && ds2.isEmpty then JSVal.nan
  else
    let mant : ℚ := sign * (mkRat (digitsToNat ds1 * 10 ^ ds2.length + digitsToNat ds2) (10 ^ ds2.length))
    match l3 with
    | e :: l4 =>
        if e = 'e' || e = 'E' then
          let eSign : ℤ := if l4.headD ' ' = '-' then -1 else 1
          let l5 := if l4.headD ' ' = '-' || l4.headD ' ' = '+' then l4.drop 1 else l4
          let ds3 := l5.takeWhile Char.isDigit
          if ds3.isEmpty then JSVal.num mant
          else JSVal.num (mant * (10 : ℚ) ^ (eSign * (digitsToNat ds3 : ℤ)))
        else JSVal.num mant
    | [] => JSVal.num mant

/-- Argument text to values: split on `[\s,]+` and `parseFloat` each field. -/
def parseArgsJS (s : String) : List JSVal :=
  (splitSepFields s.length [] s.toList).map parseFloatJS

/-- `parseTransform` of svgTransforms.js: empty input yields the identity
matrix; otherwise every `name(args)` group is parsed and composed left to
right starting from the identity, each new operation post-multiplying the
accumulated matrix. -/
def parseTransform (T : TrigModel) (transformStr : String) : AffineMatrix :=
  if transformStr.isEmpty then identityMatrix
  else
    (scanTransforms transformStr.length transformStr.toList).foldl
      (fun m t => multiplyMatrices m (createTransformMatrix T t.1 (parseArgsJS t.2)))
      identityMatrix

/-- A token of the path-data scanner: a command letter or a number. -/
inductive PathToken where
  | cmd (c : Char)
  | number (q : ℚ)
deriving DecidableEq

/-- Command letters of the path regex class `[MmLlHhVvCcSsQqTtAaZz]`. -/
def isPathCmdChar (c : Char) : Bool :=
  ("MmLlHhVvCcSsQqTtAaZz").toList.contains c

/-- Match the numeric-token regex `-?\d*\.?\d+(?:[eE][-+]?\d+)?` at the
start of the input (with its backtracking semantics: a trailing dot or an
incomplete exponent is left unconsumed).  Returns the value and the rest. -/
def matchPathNumber (l : List Char) : Option (ℚ × List Char) :=
  let hasNeg := l.headD ' ' = '-'
  let l1 := if hasNeg then l.drop 1 else l
  let ds1 := l1.takeWhile Char.isDigit
  let l2 := l1.drop ds1.length
  let ds2 := if l2.headD ' ' = '.' then (l2.drop 1).takeWhile Char.isDigit else []
  let usesDot := !ds2.isEmpty
  let l3 := if usesDot then (l2.drop 1).drop ds2.length else l2
  if ds1.isEmpty && ds2.isEmpty then none
  else
    let mant : ℚ :=
      (if hasNeg then -1 else 1) *
        mkRat (digitsToNat ds1 * 10 ^ ds2.length + digitsToNat ds2) (10 ^ ds2.length)
    match l3 with
    | e :: l4 =>
        if e = 'e' || e = 'E' then
          let eSign : ℤ := if l4.headD ' ' = '-' then -1 else 1
          let l5 := if l4.headD ' ' = '-' || l4.headD ' ' = '+' then l4.drop 1 else l4
          let ds3 := l5.takeWhile Char.isDigit
          if ds3.isEmpty then some (mant, l3)
          else some (mant * (10 : ℚ) ^ (eSign * (digitsToNat ds3 : ℤ)), l5.drop ds3.length)
        else some (mant, l3)
    | [] => some (mant, l3)

/-- Global scan of the path-data regex
`/([MmLlHhVvCcSsQqTtAaZz])|(-?\d*\.?\d+(?:[eE][-+]?\d+)?)/g`: every
unmatched character is skipped.  Fuel is the input length. -/
def scanPathTokens : ℕ → List Char → List PathToken
  | 0, _ => []
  | _, [] => []
  | fuel + 1, c :: rest =>
      if isPathCmdChar c then PathToken.cmd c :: scanPathTokens fuel rest
      else
        match matchPathNumber (c :: rest) with
        | some (q, rest2) => PathToken.number q :: scanPathTokens fuel rest2
        | none => scanPathTokens fuel rest

/-- One parsed path command: its letter and the flat numeric argument list. -/
structure PathCmd where
  cmd : Char
  args : List JSVal
deriving DecidableEq

/-- Group the token stream into commands exactly as the scanning loop of
`transformPathData` does: numbers attach to the most recent command letter;
numbers before the first letter are discarded. -/
def groupPathTokens : List PathToken → Option Char → List JSVal → List PathCmd
  | [], none, _ => []
  | [], some c, acc => [⟨c, acc.reverse⟩]
  | PathToken.cmd c :: rest, none, _ => groupPathTokens rest (some c) []
  | PathToken.cmd c :: rest, some p, acc =>
      ⟨p, acc.reverse⟩ :: groupPathTokens rest (some c) []
  | PathToken.number q :: rest, cur, acc =>
      groupPathTokens rest cur (JSVal.num q :: acc)

/-- Parse a path-data string into its command list. -/
def parsePathCommands (pathData : String) : List PathCmd :=
  groupPathTokens (scanPathTokens pathData.length pathData.toList) none []

/-- The `toAbsolute` closure of `transformCommand`: a relative coordinate
pair is offset by the (fixed) command-start cursor. -/
def toAbsolutePt (isRel : Bool) (pos : JSVal × JSVal) (x y : JSVal) : JSVal × JSVal :=
  if isRel then (jsAdd pos.1 x, jsAdd pos.2 y) else (x, y)

/-- The M/L/T loop of `transformCommand`: consumes coordinate pairs
(`i += 2`), reading a missing partner coordinate as `undefined`; the cursor
used by `toAbsolute` stays the command-start cursor for every pair, while
`newPos` tracks the last transformed point. -/
def mlLoop (m : AffineMatrix) (isRel : Bool) (startPos : JSVal × JSVal) :
    List JSVal → JSVal × JSVal → List String × (JSVal × JSVal)
  | [], acc => ([], acc)
  | [x], _ =>
      let p := toAbsolutePt isRel startPos x JSVal.undef
      let t := applyTransformJS m p.1 p.2
      ([formatNumber t.1 ++ ("," ++ formatNumber t.2)], t)
  | x :: y :: rest, _ =>
      let p := toAbsolutePt isRel startPos x y
      let t := applyTransformJS m p.1 p.2
      let r := mlLoop m isRel startPos rest t
      ((formatNumber t.1 ++ ("," ++ formatNumber t.2)) :: r.1, r.2)

/-- The H loop: each single value is paired with `0` (not the cursor `y`)
before `toAbsolute`, then transformed. -/
def hLoop (m : AffineMatrix) (isRel : Bool) (startPos : JSVal × JSVal) :
    List JSVal → JSVal × JSVal → List String × (JSVal × JSVal)
  | [], acc => ([], acc)
  | x :: rest, _ =>
      let p := toAbsolutePt isRel startPos x (JSVal.num 0)
      let t := applyTransformJS m p.1 p.2
      let r := hLoop m isRel startPos rest t
      ((formatNumber t.1 ++ ("," ++ formatNumber t.2)) :: r.1, r.2)

/-- The V loop: each single value is paired with `0` as the x coordinate. -/
def vLoop (m : AffineMatrix) (isRel : Bool) (startPos : JSVal × JSVal) :
    List JSVal → JSVal × JSVal → List String × (JSVal × JSVal)
  | [], acc => ([], acc)
  | y :: rest, _ =>
      let p := toAbsolutePt isRel startPos (JSVal.num 0) y
      let t := applyTransformJS m p.1 p.2
      let r := vLoop m isRel startPos rest t
      ((formatNumber t.1 ++ ("," ++ formatNumber t.2)) :: r.1, r.2)

/-- One iteration of the C loop body: three coordinate pairs resolved
against the command-start cursor and transformed. -/
def cGroupOut (m : AffineMatrix) (isRel : Bool) (startPos : JSVal × JSVal)
    (x1 y1 x2 y2 x y : JSVal) : List String × (JSVal × JSVal) :=
  let p1 := toAbsolutePt isRel startPos x1 y1
  let p2 := toAbsolutePt isRel startPos x2 y2
  let p := toAbsolutePt isRel startPos x y
  let t1 := applyTransformJS m p1.1 p1.2
  let t2 := applyTransformJS m p2.1 p2.2
  let t := applyTransformJS m p.1 p.2
  ([formatNumber t1.1 ++ ("," ++ formatNumber t1.2),
    formatNumber t2.1 ++ ("," ++ formatNumber t2.2),
    formatNumber t.1 ++ ("," ++ formatNumber t.2)], t)

/-- The C loop (`i += 6`): two control points and an endpoint per group,
missing trailing coordinates read as `undefined`. -/
def cLoop (m : AffineMatrix) (isRel : Bool) (startPos : JSVal × JSVal) :
    List JSVal → JSVal × JSVal → List String × (JSVal × JSVal)
  | [], acc => ([], acc)
  | [x1], _ =>
      cGroupOut m isRel startPos x1 JSVal.undef JSVal.undef JSVal.undef JSVal.undef JSVal.undef
  | [x1, y1], _ =>
      cGroupOut m isRel startPos x1 y1 JSVal.undef JSVal.undef JSVal.undef JSVal.undef
  | [x1, y1, x2], _ =>
      cGroupOut m isRel startPos x1 y1 x2 JSVal.undef JSVal.undef JSVal.undef
  | [x1, y1, x2, y2], _ =>
      cGroupOut m isRel startPos x1 y1 x2 y2 JSVal.undef JSVal.undef
  | [x1, y1, x2, y2, x], _ =>
      cGroupOut m isRel startPos x1 y1 x2 y2 x JSVal.undef
  | x1 :: y1 :: x2 :: y2 :: x :: y :: rest, _ =>
      let g := cGroupOut m isRel startPos x1 y1 x2 y2 x y
      let r := cLoop m isRel startPos rest g.2
      (g.1 ++ r.1, r.2)

/-- One iteration of the S/Q loop body: a control point and an endpoint
resolved against the command-start cursor and transformed. -/
def sqGroupOut (m : AffineMatrix) (isRel : Bool) (startPos : JSVal × JSVal)
    (x2 y2 x y : JSVal) : List String × (JSVal × JSVal) :=
  let p2 := toAbsolutePt isRel startPos x2 y2
  let p := toAbsolutePt isRel startPos x y
  let t2 := applyTransformJS m p2.1 p2.2
  let t := applyTransformJS m p.1 p.2
  ([formatNumber t2.1 ++ ("," ++ formatNumber t2.2),
    formatNumber t.1 ++ ("," ++ formatNumber t.2)], t)

/-- The S/Q loop (`i += 4`): one control point and an endpoint per group,
missing trailing coordinates read as `undefined`. -/
def sqLoop (m : AffineMatrix) (isRel : Bool) (startPos : JSVal × JSVal) :
    List JSVal → JSVal × JSVal → List String × (JSVal × JSVal)
  | [], acc => ([], acc)
  | [x2], _ =>
      sqGroupOut m isRel startPos x2 JSVal.undef JSVal.undef JSVal.undef
  | [x2, y2], _ =>
      sqGroupOut m isRel startPos x2 y2 JSVal.undef JSVal.undef
  | [x2, y2, x], _ =>
      sqGroupOut m isRel startPos x2 y2 x JSVal.undef
  | x2 :: y2 :: x :: y :: rest, _ =>
      let g := sqGroupOut m isRel startPos x2 y2 x y
      let r := sqLoop m isRel startPos rest g.2
      (g.1 ++ r.1, r.2)

/-- One iteration of the A loop body (`i += 7`): radii, rotation and both
flags are re-emitted from the input values, only the endpoint goes through
the matrix.  Calling `.toString()` on a missing (`undefined`) flag throws a
`TypeError`, modelled as `none`. -/
def arcGroupOut (m : AffineMatrix) (isRel : Bool) (startPos : JSVal × JSVal)
    (rx ry rotation largeArc sweep x y : JSVal) :
    Option (List String × (JSVal × JSVal)) :=
  let p := toAbsolutePt isRel startPos x y
  let t := applyTransformJS m p.1 p.2
  match jsValToStr largeArc, jsValToStr sweep with
  | some laStr, some swStr =>
      some ([formatNumber rx ++ ("," ++ formatNumber ry),
             formatNumber rotation, laStr, swStr,
             formatNumber t.1 ++ ("," ++ formatNumber t.2)], t)
  | _, _ => none

/-- The A loop proper, consuming seven arguments per group. -/
def arcLoop (m : AffineMatrix) (isRel : Bool) (startPos : JSVal × JSVal) :
    List JSVal → JSVal × JSVal → Option (List String × (JSVal × JSVal))
  | [], acc => some ([], acc)
  | [rx], _ =>
      arcGroupOut m isRel startPos rx JSVal.undef JSVal.undef JSVal.undef JSVal.undef
        JSVal.undef JSVal.undef
  | [rx, ry], _ =>
      arcGroupOut m isRel startPos rx ry JSVal.undef JSVal.undef JSVal.undef
        JSVal.undef JSVal.undef
  | [rx, ry, rot], _ =>
      arcGroupOut m isRel startPos rx ry rot JSVal.undef JSVal.undef
        JSVal.undef JSVal.undef
  | [rx, ry, rot, la], _ =>
      arcGroupOut m isRel startPos rx ry rot la JSVal.undef JSVal.undef JSVal.undef
  | [rx, ry, rot, la, sw], _ =>
      arcGroupOut m isRel startPos rx ry rot la sw JSVal.undef JSVal.undef
  | [rx, ry, rot, la, sw, x], _ =>
      arcGroupOut m isRel startPos rx ry rot la sw x JSVal.undef
  | rx :: ry :: rot :: la :: sw :: x :: y :: rest, _ =>
      match arcGroupOut m isRel startPos rx ry rot la sw x y with
      | some g =>
          match arcLoop m isRel startPos rest g.2 with
          | some r => some (g.1 ++ r.1, r.2)
          | none => none
      | none => none

/-- Rendering of one value inside `args.join(',')` of the defensive
default branch (`Array.prototype.join` renders `undefined` as the empty
string and does not throw). -/
def jsJoinElemStr : JSVal → String
  | JSVal.num q => jsNumToStr q
  | JSVal.nan => ("NaN")
  | JSVal.undef => ("")

/-- `transformCommand` of svgTransforms.js.  Returns the emitted text and
the new cursor (`none` inside the pair for `Z`, which leaves the cursor
untouched); the outer `Option` models a thrown `TypeError` (possible only
in the arc case).  Note the two source quirks this embedding preserves:
`toAbsolute` always resolves against the command-start cursor, and the
cursor is tracked in transformed coordinates. -/
def transformCommand (cmd : Char) (args : List JSVal) (m : AffineMatrix)
    (currentPos : JSVal × JSVal) : Option (String × Option (JSVal × JSVal)) :=
  let isRel := cmd = cmd.toLower
  let cu := cmd.toUpper
  if cu = 'Z' then some (("Z"), none)
  else if cu = 'M' || cu = 'L' || cu = 'T' then
    let r := mlLoop m isRel currentPos args currentPos
    some (String.intercalate (" ") (String.singleton cu :: r.1), some r.2)
  else if cu = 'H' then
    let r := hLoop m isRel currentPos args currentPos
    some (String.intercalate (" ") (("L") :: r.1), some r.2)
  else if cu = 'V' then
    let r := vLoop m isRel currentPos args currentPos
    some (String.intercalate (" ") (("L") :: r.1), some r.2)
  else if cu = 'C' then
    let r := cLoop m isRel currentPos args currentPos
    some (String.intercalate (" ") (String.singleton cu :: r.1), some r.2)
  else if cu = 'S' || cu = 'Q' then
    let r := sqLoop m isRel currentPos args currentPos
    some (String.intercalate (" ") (String.singleton cu :: r.1), some r.2)
  else if cu = 'A' then
    match arcLoop m isRel currentPos args currentPos with
    | some r => some (String.intercalate (" ") (String.singleton cu :: r.1), some r.2)
    | none => none
  else
    let parts := String.singleton cmd ::
      (if args.isEmpty then [] else [String.intercalate (",") (args.map jsJoinElemStr)])
    some (String.intercalate (" ") parts, some currentPos)

/-- The main loop of `transformPathData`: thread the cursor through the
commands, concatenating the per-command outputs with `join('')`. -/
def runPathCommands (m : AffineMatrix) :
    List PathCmd → JSVal × JSVal → String → Option (String × (JSVal × JSVal))
  | [], pos, acc => some (acc, pos)
  | pc :: rest, pos, acc =>
      match transformCommand pc.cmd pc.args m pos with
      | none => none
      | some (out, np) => runPathCommands m rest (np.getD pos) (acc ++ out)

/-- Parse, transform and re-emit a path-data string (the non-identity part
of `transformPathData`), also exposing the final cursor. -/
def transformPathRun (pathData : String) (m : AffineMatrix) :
    Option (String × (JSVal × JSVal)) :=
  runPathCommands m (parsePathCommands pathData) (JSVal.num 0, JSVal.num 0) ("")

/-- `transformPathData` of svgTransforms.js: an identity matrix returns the
input unchanged; otherwise the path is re-parsed, transformed and re-built.
`none` models the one reachable `TypeError` (arc flags `undefined`). -/
def transformPathData (pathData : String) (m : AffineMatrix) : Option String :=
  if isIdentityMatrix m then some pathData
  else (transformPathRun pathData m).map (fun r => r.1)

/-- The numeric record returned for a transformed ellipse/circle. -/
@[ext] structure EllipseRec where
  cx : JSVal
  cy : JSVal
  rx : JSVal
  ry : JSVal
deriving DecidableEq

/-- `transformEllipse` of svgTransforms.js: a translation-only matrix moves
the center; otherwise the center is transformed exactly and each radius is
replaced by `Math.abs` of the corresponding component of the transformed
point `(rx, 0)` (resp. `(0, ry)`) minus the translation entry. -/
def transformEllipse (cx cy rx ry : JSVal) (m : AffineMatrix) : EllipseRec :=
  if jsStrictEq m.a (JSVal.num 1) && jsStrictEq m.b (JSVal.num 0) &&
     jsStrictEq m.c (JSVal.num 0) && jsStrictEq m.d (JSVal.num 1) then
    ⟨jsAdd cx m.e, jsAdd cy m.f, rx, ry⟩
  else
    let c2 := applyTransformJS m cx cy
    let rx1 := (applyTransformJS m rx (JSVal.num 0)).1
    let ry1 := (applyTransformJS m (JSVal.num 0) ry).2
    ⟨c2.1, c2.2, jsAbs (jsSub rx1 m.e), jsAbs (jsSub ry1 m.f)⟩

/-- The numeric record returned for a transformed rectangle. -/
@[ext] structure RectangleRec where
  x : JSVal
  y : JSVal
  width : JSVal
  height : JSVal
deriving DecidableEq

/-- `transformRect` of svgTransforms.js: a translation-only matrix moves
the corner; otherwise all four corners are transformed and the axis-aligned
bounding box (min/max per axis) is returned. -/
def transformRect (x y width height : JSVal) (m : AffineMatrix) : RectangleRec :=
  if jsStrictEq m.a (JSVal.num 1) && jsStrictEq m.b (JSVal.num 0) &&
     jsStrictEq m.c (JSVal.num 0) && jsStrictEq m.d (JSVal.num 1) then
    ⟨jsAdd x m.e, jsAdd y m.f, width, height⟩
  else
    let c1 := applyTransformJS m x y
    let c2 := applyTransformJS m (jsAdd x width) y
    let c3 := applyTransformJS m (jsAdd x width) (jsAdd y height)
    let c4 := applyTransformJS m x (jsAdd y height)
    let minX := jsMin (jsMin (jsMin c1.1 c2.1) c3.1) c4.1
    let minY := jsMin (jsMin (jsMin c1.2 c2.2) c3.2) c4.2
    let maxX := jsMax (jsMax (jsMax c1.1 c2.1) c3.1) c4.1
    let maxY := jsMax (jsMax (jsMax c1.2 c2.2) c3.2) c4.2
    ⟨minX, minY, jsSub maxX minX, jsSub maxY minY⟩

/-- The standard translation matrix `translate(tx, ty)`, as named in the
spec's composition property. -/
def translateMatrix (tx ty : ℚ) : AffineMatrix :=
  ⟨JSVal.num 1, JSVal.num 0, JSVal.num 0, JSVal.num 1, JSVal.num tx, JSVal.num ty⟩

/-- The standard scale matrix `scale(sx, sy)`, as named in the spec's
composition property. -/
def scaleMatrix (sx sy : ℚ) : AffineMatrix :=
  ⟨JSVal.num sx, JSVal.num 0, JSVal.num 0, JSVal.num sy, JSVal.num 0, JSVal.num 0⟩

/-- Modelled from the spec's words, for comparison with the code (claim C5):
the squared magnitude of the offset of the transformed point `(rx, 0)` from
the transformed center `(cx, cy)`, all in exact rational arithmetic. -/
def specEllipseRxOffsetSq (a b c d e f cx cy rx : ℚ) : ℚ :=
  ((a * rx + c * 0 + e) - (a * cx + c * cy + e)) ^ 2 +
    ((b * rx + d * 0 + f) - (b * cx + d * cy + f)) ^ 2

/-- All six fields of a matrix are defined (not `undefined`); the fields
may still be `NaN`. -/
def matrixNoUndef (m : AffineMatrix) : Prop :=
  m.a ≠ JSVal.undef ∧ m.b ≠ JSVal.undef ∧ m.c ≠ JSVal.undef ∧
  m.d ≠ JSVal.undef ∧ m.e ≠ JSVal.undef ∧ m.f ≠ JSVal.undef

/-- C1 (corrected claim): `parseTransform` composes left to right starting
from the identity, each new operation post-multiplying the accumulated
matrix, so `parseTransform("translate(5,5) scale(2)")` equals
`multiplyMatrices(translateMatrix(5,5), scaleMatrix(2,2))` — the standard
product with the translation matrix on the left, i.e. the matrix that
applies the scale to a point first and the translation second — and
`parseTransform("scale(2) translate(5,5)")` differs from that result.
Holds for every trig model. -/
theorem C1_parseTransform_postmultiplies (T : TrigModel) :
    parseTransform T ("translate(5,5) scale(2)") =
      multiplyMatrices (translateMatrix 5 5) (scaleMatrix 2 2) ∧
    parseTransform T ("scale(2) translate(5,5)") ≠
      multiplyMatrices (translateMatrix 5 5) (scaleMatrix 2 2) := by
  constructor
  · with_unfolding_all rfl
  · intro h
    have h2 : (⟨JSVal.num 2, JSVal.num 0, JSVal.num 0, JSVal.num 2,
        JSVal.num 10, JSVal.num 10⟩ : AffineMatrix) =
        ⟨JSVal.num 2, JSVal.num 0, JSVal.num 0, JSVal.num 2,
          JSVal.num 5, JSVal.num 5⟩ := by
      calc (⟨JSVal.num 2, JSVal.num 0, JSVal.num 0, JSVal.num 2,
              JSVal.num 10, JSVal.num 10⟩ : AffineMatrix) =
          parseTransform T ("scale(2) translate(5,5)") := by with_unfolding_all rfl
        _ = multiplyMatrices (translateMatrix 5 5) (scaleMatrix 2 2) := h
        _ = ⟨JSVal.num 2, JSVal.num 0, JSVal.num 0, JSVal.num 2,
              JSVal.num 5, JSVal.num 5⟩ := by with_unfolding_all rfl
    have h3 : (10 : ℚ) = 5 := congrArg
      (fun m => match m.e with | JSVal.num q => q | _ => 0) h2
    norm_num at h3

/-- C1 witness: the composition facts at the trivial trig model. -/
theorem C1_witness :
    parseTransform trigZero ("translate(5,5) scale(2)") =
      multiplyMatrices (translateMatrix 5 5) (scaleMatrix 2 2) ∧
    parseTransform trigZero ("scale(2) translate(5,5)") ≠
      multiplyMatrices (translateMatrix 5 5) (scaleMatrix 2 2) :=
  C1_parseTransform_postmultiplies trigZero

/-- C1 counterexample: the claim as stated is false — with
`compose(m1, m2) = M2 · M1` (the claim's gloss), the left side
`parseTransform("translate(5,5) scale(2)")` does not equal
`multiplyMatrices(scaleMatrix(2,2), translateMatrix(5,5))`, while
`parseTransform("scale(2) translate(5,5)")`, which the claim requires to
differ from that product, is exactly equal to it. -/
theorem C1_counterexample :
    parseTransform trigZero ("translate(5,5) scale(2)") ≠
      multiplyMatrices (scaleMatrix 2 2) (translateMatrix 5 5) ∧
    parseTransform trigZero ("scale(2) translate(5,5)") =
      multiplyMatrices (scaleMatrix 2 2) (translateMatrix 5 5) := by
  with_unfolding_all decide

/-- C2 (code bug): transforming `"M0,0 l10,0 l0,10"` by `translate(1,1)`
ends with the cursor at `(13, 13)`, not `(11, 11)` as the claim (and
standard grammar semantics) require: the code stores the *transformed*
endpoint as the cursor, so each relative command is offset by an
already-translated point and the translation is applied repeatedly. -/
theorem C2_relative_cursor_eval :
    transformPathRun ("M0,0 l10,0 l0,10")
        ⟨JSVal.num 1, JSVal.num 0, JSVal.num 0, JSVal.num 1, JSVal.num 1, JSVal.num 1⟩ =
      some (("M 1,1L 12,2L 13,13"), (JSVal.num 13, JSVal.num 13)) ∧
    ((JSVal.num 13, JSVal.num 13) : JSVal × JSVal) ≠ (JSVal.num 11, JSVal.num 11) := by
  with_unfolding_all decide

/-- C3 (code bug): for the absolute command `H10` after `M0,5`, the code
pairs the value with `y = 0` instead of the cursor `y`, emitting
`"L 11,1"` under `translate(1,1)` where the claimed expansion
`(x, cursorY)` would give `"L 11,6"`.  (The output does contain no `H`
token, as the claim also states.) -/
theorem C3_absolute_H_eval :
    transformPathData ("M0,5 H10")
        ⟨JSVal.num 1, JSVal.num 0, JSVal.num 0, JSVal.num 1, JSVal.num 1, JSVal.num 1⟩ =
      some (("M 1,6L 11,1")) ∧
    (("M 1,6L 11,1") : String) ≠ ("M 1,6L 11,6") := by
  with_unfolding_all decide

/-- C7 (code bug): a trailing argument group that does not fill the
command's arity is not dropped: for `"M1,2 3"` the dangling `3` is emitted
as the partial tuple `"NaN,NaN"` (the missing partner coordinate is
`undefined` and the arithmetic turns both components into `NaN`), and for
an arc command whose trailing group is missing its flags
(`"M0,0 A1,2"`) the code even throws a `TypeError`
(`undefined.toString()`), modelled as `none`. -/
theorem C7_partial_group_eval :
    transformPathData ("M1,2 3")
        ⟨JSVal.num 1, JSVal.num 0, JSVal.num 0, JSVal.num 1, JSVal.num 1, JSVal.num 1⟩ =
      some (("M 2,3 NaN,NaN")) ∧
    transformPathData ("M0,0 A1,2")
        ⟨JSVal.num 1, JSVal.num 0, JSVal.num 0, JSVal.num 1, JSVal.num 1, JSVal.num 1⟩ =
      none ∧
    (("M 2,3 NaN,NaN") : String) ≠ ("M 2,3") := by
  with_unfolding_all decide

theorem jsStrictEq_num_iff (x : JSVal) (q : ℚ) :
    jsStrictEq x (JSVal.num q) = true ↔ x = JSVal.num q := by
  cases x <;> simp [jsStrictEq]

/-- C6: `transformPathData` returns its input unchanged, byte for byte, on
the exact identity matrix, and `isIdentityMatrix` holds precisely for the
literal `(1, 0, 0, 1, 0, 0)` — strict equality, no epsilon tolerance. -/
theorem C6_identity_fast_path :
    (∀ d : String, transformPathData d identityMatrix = some d) ∧
    (∀ m : AffineMatrix, isIdentityMatrix m = true ↔ m = identityMatrix) := by
  have hiff : ∀ m : AffineMatrix, isIdentityMatrix m = true ↔ m = identityMatrix := by
    intro m
    simp [isIdentityMatrix, Bool.and_eq_true, jsStrictEq_num_iff,
      AffineMatrix.ext_iff, identityMatrix, and_assoc]
  refine ⟨?_, hiff⟩
  intro d
  have hid : isIdentityMatrix identityMatrix = true := (hiff identityMatrix).mpr rfl
  simp [transformPathData, hid]

/-- C6 witness: a concrete path is returned verbatim under the identity. -/
theorem C6_witness :
    transformPathData ("M0,0 L5,5") identityMatrix = some (("M0,0 L5,5")) :=
  C6_identity_fast_path.1 ("M0,0 L5,5")

theorem jsAdd_ne_undef (x y : JSVal) : jsAdd x y ≠ JSVal.undef := by
  cases x <;> cases y <;> simp [jsAdd]

theorem multiplyMatrices_noUndef (m1 m2 : AffineMatrix) :
    matrixNoUndef (multiplyMatrices m1 m2) := by
  refine ⟨?_, ?_, ?_, ?_, ?_, ?_⟩ <;> apply jsAdd_ne_undef

theorem identityMatrix_noUndef : matrixNoUndef identityMatrix := by
  refine ⟨?_, ?_, ?_, ?_, ?_, ?_⟩ <;> simp [identityMatrix]

theorem foldl_mult_noUndef (T : TrigModel) (l : List (String × String))
    (m : AffineMatrix) (h : matrixNoUndef m) :
    matrixNoUndef (l.foldl
      (fun m t => multiplyMatrices m (createTransformMatrix T t.1 (parseArgsJS t.2))) m) := by
  induction l generalizing m with
  | nil => exact h
  | cons t rest ih => exact ih _ (multiplyMatrices_noUndef _ _)

/-- C4 (corrected claim): no field of a matrix produced by `parseTransform`
is ever `undefined`, for every input string and every trig model.  (The
original claim also excluded `NaN`, which the counterexample refutes.) -/
theorem C4_no_undefined_fields (T : TrigModel) (s : String) :
    matrixNoUndef (parseTransform T s) := by
  unfold parseTransform
  split
  · exact identityMatrix_noUndef
  · exact foldl_mult_noUndef T _ _ identityMatrix_noUndef

/-- C4 witness: no undefined field for a concrete rotate expression. -/
theorem C4_witness : matrixNoUndef (parseTransform trigZero ("rotate(30)")) :=
  C4_no_undefined_fields trigZero ("rotate(30)")

/-- C4 counterexample: `parseTransform("matrix(1,2,3,4,5,x)")` has `NaN` in
its `e` and `f` fields — `parseFloat("x")` is `NaN`, and a six-argument
`matrix(...)` function installs its arguments unchecked — so the returned
matrix is not free of `NaN` fields as the claim states. -/
theorem C4_counterexample :
    (parseTransform trigZero ("matrix(1,2,3,4,5,x)")).e = JSVal.nan ∧
    (parseTransform trigZero ("matrix(1,2,3,4,5,x)")).f = JSVal.nan := by
  with_unfolding_all decide

/-- C5 (corrected claim): for a matrix that is not translation-only, the
center is transformed exactly, but the new radii are `|a·rx|` and `|d·ry|`:
the code transforms the points `(rx, 0)` and `(0, ry)`, keeps only the x
(resp. y) component, and subtracts the translation entry `e` (resp. `f`) —
it does not take the magnitude of the offset from the transformed center. -/
theorem C5_transformEllipse_componentwise (a b c d e f cx cy rx ry : ℚ)
    (hnt : ¬(a = 1 ∧ b = 0 ∧ c = 0 ∧ d = 1)) :
    transformEllipse (JSVal.num cx) (JSVal.num cy) (JSVal.num rx) (JSVal.num ry)
        ⟨JSVal.num a, JSVal.num b, JSVal.num c, JSVal.num d, JSVal.num e, JSVal.num f⟩ =
      ⟨JSVal.num (a * cx + c * cy + e), JSVal.num (b * cx + d * cy + f),
       JSVal.num |a * rx|, JSVal.num |d * ry|⟩ := by
  unfold transformEllipse
  split
  · rename_i hc
    exfalso
    apply hnt
    simp only [jsStrictEq, Bool.and_eq_true, beq_iff_eq] at hc
    exact ⟨hc.1.1.1, hc.1.1.2, hc.1.2, hc.2⟩
  · simp only [applyTransformJS, jsAdd, jsMul, jsSub, jsAbs, EllipseRec.mk.injEq,
      JSVal.num.injEq]
    refine ⟨trivial, trivial, ?_, ?_⟩
    · rw [abs_eq_abs]
      left
      ring
    · rw [abs_eq_abs]
      left
      ring

/-- C5 witness: the component formula at a concrete non-translation
matrix. -/
theorem C5_witness :
    transformEllipse (JSVal.num 1) (JSVal.num 2) (JSVal.num 5) (JSVal.num 7)
        ⟨JSVal.num 2, JSVal.num 0, JSVal.num 0, JSVal.num 3, JSVal.num 1, JSVal.num 4⟩ =
      ⟨JSVal.num (2 * 1 + 0 * 2 + 1), JSVal.num (0 * 1 + 3 * 2 + 4),
       JSVal.num |(2 : ℚ) * 5|, JSVal.num |(3 : ℚ) * 7|⟩ :=
  C5_transformEllipse_componentwise 2 0 0 3 1 4 1 2 5 7 (by with_unfolding_all decide)

/-- C5 counterexample: under the rotation-by-90-degrees matrix
`(0, 1, -1, 0, 0, 0)` the code returns radius `rx = 0` for the input radius
`5`, although the offset of the transformed point `(5, 0)` from the
transformed center has squared magnitude `25`, so its magnitude is `5`,
not `0` — the claim's magnitude formula does not describe the code. -/
theorem C5_counterexample :
    transformEllipse (JSVal.num 0) (JSVal.num 0) (JSVal.num 5) (JSVal.num 3)
        ⟨JSVal.num 0, JSVal.num 1, JSVal.num (-1), JSVal.num 0, JSVal.num 0, JSVal.num 0⟩ =
      ⟨JSVal.num 0, JSVal.num 0, JSVal.num 0, JSVal.num 0⟩ ∧
    specEllipseRxOffsetSq 0 1 (-1) 0 0 0 0 0 5 = 25 ∧ ((0 : ℚ) ^ 2 ≠ 25) := by
  refine ⟨by with_unfolding_all decide, by norm_num [specEllipseRxOffsetSq], by norm_num⟩

/-- C8 (corrected claim): `parseTransform` is a total function that yields
the identity matrix for the empty string and for `"foo(1,2,3)"`, and every
unknown function name contributes the identity matrix; however a malformed
string need not degrade to the identity (see the counterexample). -/
theorem C8_unknown_and_empty_identity (T : TrigModel) :
    parseTransform T ("") = identityMatrix ∧
    parseTransform T ("foo(1,2,3)") = identityMatrix ∧
    ∀ (name : String) (args : List JSVal),
      name ∉ [("translate"), ("matrix"), ("scale"), ("rotate"), ("skewX"), ("skewY")] →
      createTransformMatrix T name args = identityMatrix := by
  refine ⟨by with_unfolding_all rfl, by with_unfolding_all rfl, ?_⟩
  intro name args h
  simp only [List.mem_cons, List.not_mem_nil, or_false, not_or] at h
  obtain ⟨h1, h2, h3, h4, h5, h6⟩ := h
  simp [createTransformMatrix, h1, h2, h3, h4, h5, h6]

/-- C8 witness: the unknown function name `foo` yields the identity. -/
theorem C8_witness :
    createTransformMatrix trigZero ("foo") [JSVal.num 1] = identityMatrix :=
  (C8_unknown_and_empty_identity trigZero).2.2 ("foo") [JSVal.num 1]
    (by with_unfolding_all decide)

/-- C8 counterexample: the malformed transform string `"scale(2,x)"` does
not degrade to the identity matrix — its second argument parses to `NaN`,
which survives into the composed matrix. -/
theorem C8_counterexample :
    parseTransform trigZero ("scale(2,x)") ≠ identityMatrix ∧
    (parseTransform trigZero ("scale(2,x)")).d = JSVal.nan := by
  with_unfolding_all decide

/-- C9 (corrected claim): for an uppercase arc command with one argument
group, the radii, the rotation and the two flags are emitted independently
of the matrix — radii and rotation through the 6-decimal `formatNumber`
(so a value needing more than 6 decimals is rounded, not passed through
verbatim) and the flags through `Number.toString` — while only the
endpoint goes through `applyTransform`. -/
theorem C9_arc_only_endpoint_transformed (m : AffineMatrix)
    (px py rx ry rot la sw x y : ℚ) :
    transformCommand 'A'
        [JSVal.num rx, JSVal.num ry, JSVal.num rot, JSVal.num la, JSVal.num sw,
         JSVal.num x, JSVal.num y] m (JSVal.num px, JSVal.num py) =
      some (String.intercalate (" ")
          [("A"), formatNumber (JSVal.num rx) ++ ("," ++ formatNumber (JSVal.num ry)),
           formatNumber (JSVal.num rot), jsNumToStr la, jsNumToStr sw,
           formatNumber (applyTransformJS m (JSVal.num x) (JSVal.num y)).1 ++
             ("," ++ formatNumber (applyTransformJS m (JSVal.num x) (JSVal.num y)).2)],
        some (applyTransformJS m (JSVal.num x) (JSVal.num y))) := by
  rfl

/-- C9 witness: the arc emission shape at concrete values. -/
theorem C9_witness :
    transformCommand 'A'
        [JSVal.num 1, JSVal.num 2, JSVal.num 30, JSVal.num 0, JSVal.num 1,
         JSVal.num 3, JSVal.num 4]
        ⟨JSVal.num 2, JSVal.num 0, JSVal.num 0, JSVal.num 2, JSVal.num 1, JSVal.num 1⟩
        (JSVal.num 0, JSVal.num 0) =
      some (String.intercalate (" ")
          [("A"), formatNumber (JSVal.num 1) ++ ("," ++ formatNumber (JSVal.num 2)),
           formatNumber (JSVal.num 30), jsNumToStr 0, jsNumToStr 1,
           formatNumber (applyTransformJS
               ⟨JSVal.num 2, JSVal.num 0, JSVal.num 0, JSVal.num 2, JSVal.num 1, JSVal.num 1⟩
               (JSVal.num 3) (JSVal.num 4)).1 ++
             ("," ++ formatNumber (applyTransformJS
               ⟨JSVal.num 2, JSVal.num 0, JSVal.num 0, JSVal.num 2, JSVal.num 1, JSVal.num 1⟩
               (JSVal.num 3) (JSVal.num 4)).2)],
        some (applyTransformJS
          ⟨JSVal.num 2, JSVal.num 0, JSVal.num 0, JSVal.num 2, JSVal.num 1, JSVal.num 1⟩
          (JSVal.num 3) (JSVal.num 4))) :=
  C9_arc_only_endpoint_transformed
    ⟨JSVal.num 2, JSVal.num 0, JSVal.num 0, JSVal.num 2, JSVal.num 1, JSVal.num 1⟩
    0 0 1 2 30 0 1 3 4

/-- C9 counterexample: a radius with seven decimal places is rounded by the
formatter, so it is not passed through to the output unmodified. -/
theorem C9_counterexample :
    transformPathData ("M0,0 A0.1234567,2 0 0 1 4,4")
        ⟨JSVal.num 1, JSVal.num 0, JSVal.num 0, JSVal.num 1, JSVal.num 1, JSVal.num 1⟩ =
      some (("M 1,1A 0.123457,2 0 0 1 5,5")) ∧
    (("M 1,1A 0.123457,2 0 0 1 5,5") : String) ≠ ("M 1,1A 0.1234567,2 0 0 1 5,5") := by
  with_unfolding_all decide

/-- C10: for a matrix whose linear part is not the identity, `transformRect`
returns a rectangle with nonnegative width and height — they are max minus
min per axis over the four transformed corners — for all real inputs,
including negative input width or height. -/
theorem C10_transformRect_nonneg (x y w h a b c d e f : ℚ)
    (hnt : ¬(a = 1 ∧ b = 0 ∧ c = 0 ∧ d = 1)) :
    ∃ wq hq : ℚ,
      (transformRect (JSVal.num x) (JSVal.num y) (JSVal.num w) (JSVal.num h)
          ⟨JSVal.num a, JSVal.num b, JSVal.num c, JSVal.num d,
           JSVal.num e, JSVal.num f⟩).width = JSVal.num wq ∧ 0 ≤ wq ∧
      (transformRect (JSVal.num x) (JSVal.num y) (JSVal.num w) (JSVal.num h)
          ⟨JSVal.num a, JSVal.num b, JSVal.num c, JSVal.num d,
           JSVal.num e, JSVal.num f⟩).height = JSVal.num hq ∧ 0 ≤ hq := by
  unfold transformRect
  split
  · rename_i hc
    exfalso
    apply hnt
    simp only [jsStrictEq, Bool.and_eq_true, beq_iff_eq] at hc
    exact ⟨hc.1.1.1, hc.1.1.2, hc.1.2, hc.2⟩
  · simp only [applyTransformJS, jsAdd, jsMul, jsSub, jsMin, jsMax]
    refine ⟨_, _, rfl, ?_, rfl, ?_⟩
    · exact sub_nonneg.mpr ((min_le_right _ _).trans (le_max_right _ _))
    · exact sub_nonneg.mpr ((min_le_right _ _).trans (le_max_right _ _))

/-- C10 witness: nonnegative output extents for a negative input width
under a swap matrix. -/
theorem C10_witness :
    ∃ wq hq : ℚ,
      (transformRect (JSVal.num 0) (JSVal.num 0) (JSVal.num (-3)) (JSVal.num 2)
          ⟨JSVal.num 0, JSVal.num 1, JSVal.num 1, JSVal.num 0,
           JSVal.num 0, JSVal.num 0⟩).width = JSVal.num wq ∧ 0 ≤ wq ∧
      (transformRect (JSVal.num 0) (JSVal.num 0) (JSVal.num (-3)) (JSVal.num 2)
          ⟨JSVal.num 0, JSVal.num 1, JSVal.num 1, JSVal.num 0,
           JSVal.num 0, JSVal.num 0⟩).height = JSVal.num hq ∧ 0 ≤ hq :=
  C10_transformRect_nonneg 0 0 (-3) 2 0 1 1 0 0 0 (by with_unfolding_all decide)
